import Mathlib

/-!
Verification of the partition-lifecycle and SQL-construction logic of the
etl-gardener repository (package `cloud/bq`, file `ops.go`, plus the
partition-name parser and sanity checker exercised by `sanity_test.go`).

The Go code is embedded shallowly:
* `tracker.Job` and the `queryer` struct become Lean structures; the Go
  `map[string]string` field `PartitionKeys` is modelled as an association
  list, and Go template `range` over a map (which enumerates keys in sorted
  order) is modelled by sorting the list by key before rendering;
* the `html/template` rendering of `dedupTemplate` and `cleanupTemplate`
  becomes explicit string concatenation (on the identifier-like values used
  by the policies, HTML escaping is the identity);
* fallible Go functions returning `(value, error)` become `Except`;
  the `bqiface.Client` field is modelled as `Option Unit`, `none` standing
  for a nil client;
* remote side effects (running a query, copying or deleting a table) are
  modelled by returning a description of the request the code would issue.
-/

deriving instance DecidableEq for Except

namespace EtlGardener

/-- Calendar date carried by `tracker.Job` (Go `time.Time`, used only via
`Format "2006-01-02"` and `Format "20060102"`). -/
structure GoDate where
  year : Nat
  month : Nat
  day : Nat
deriving DecidableEq, Repr

/-- Two-digit zero padding, as Go `time.Time.Format` produces for month and day. -/
def pad2 (n : Nat) : String :=
  if n < 10 then "0" ++ toString n else toString n

/-- Four-digit zero padding, as Go `time.Time.Format` produces for the year. -/
def pad4 (n : Nat) : String :=
  if n < 10 then "000" ++ toString n
  else if n < 100 then "00" ++ toString n
  else if n < 1000 then "0" ++ toString n
  else toString n

/-- Go `Job.Date.Format "2006-01-02"`. -/
def GoDate.formatISO (d : GoDate) : String :=
  pad4 d.year ++ "-" ++ pad2 d.month ++ "-" ++ pad2 d.day

/-- Go `Job.Date.Format "20060102"`. -/
def GoDate.formatYYYYMMDD (d : GoDate) : String :=
  pad4 d.year ++ pad2 d.month ++ pad2 d.day

/-- `tracker.Job`: one unit of work `(bucket, experiment, datatype, date)`. -/
structure Job where
  Bucket : String
  Experiment : String
  Datatype : String
  Date : GoDate
deriving DecidableEq, Repr

/-- Errors returned by the embedded `cloud/bq` operations. -/
inductive BQError where
  | ErrDatatypeNotSupported
  | ErrNilQuery
  | ErrNilBqClient
  | dryRunNotImplemented
deriving DecidableEq, Repr

/-- `bq.queryer` from `ops.go`: parameters used to construct dedup queries.
The Go `client bqiface.Client` is `Option Unit` (`none` models nil);
the Go `PartitionKeys map[string]string` is an association list
(key = single field name, value = fully qualified name). -/
structure queryer where
  client : Option Unit
  Project : String
  Date : String
  Job : Job
  PartitionKeys : List (String × String)
  OrderKeys : String
deriving DecidableEq, Repr

/-- `bq.NewQuerierWithClient`: selects the per-datatype dedup policy, or
fails with `ErrDatatypeNotSupported` (Go returns `nil, ErrDatatypeNotSupported`;
the `Except.error` case models both the nil handler and the error). -/
def NewQuerierWithClient (client : Option Unit) (job : Job) (project : String) :
    Except BQError queryer :=
  if job.Datatype = "annotation" then
    .ok { client := client, Project := project, Date := "date", Job := job,
          PartitionKeys := [("id", "id")], OrderKeys := "" }
  else if job.Datatype = "ndt5" then
    .ok { client := client, Project := project, Date := "log_time", Job := job,
          PartitionKeys := [("test_id", "test_id")], OrderKeys := "" }
  else if job.Datatype = "ndt7" then
    .ok { client := client, Project := project, Date := "date", Job := job,
          PartitionKeys := [("id", "id")], OrderKeys := "" }
  else
    .error .ErrDatatypeNotSupported

/-- Lexicographic comparison of character lists, the order in which Go
`text/template` enumerates the keys of a `map[string]string`. -/
def charListLE : List Char → List Char → Bool
  | [], _ => true
  | _ :: _, [] => false
  | a :: as, b :: bs =>
    if a.toNat < b.toNat then true
    else if b.toNat < a.toNat then false
    else charListLE as bs

theorem charListLE_total (x : List Char) : ∀ y : List Char,
    charListLE x y = true ∨ charListLE y x = true := by
  induction x with
  | nil => intro y; left; rfl
  | cons a as ih =>
    intro y
    cases y with
    | nil => right; rfl
    | cons b bs =>
      by_cases h1 : a.toNat < b.toNat
      · left; simp [charListLE, h1]
      · by_cases h2 : b.toNat < a.toNat
        · right; simp [charListLE, h1, h2]
        · rcases ih bs with h | h
          · left; simp [charListLE, h1, h2, h]
          · right; simp [charListLE, h1, h2, h]

theorem charListLE_trans : ∀ x y z : List Char,
    charListLE x y = true → charListLE y z = true → charListLE x z = true
  | [], _, _, _, _ => rfl
  | _ :: _, [], _, h, _ => by simp [charListLE] at h
  | _ :: _, _ :: _, [], _, h => by simp [charListLE] at h
  | a :: as, b :: bs, c :: cs, h1, h2 => by
    simp only [charListLE] at h1 h2 ⊢
    by_cases hab : a.toNat < b.toNat
    · by_cases hbc : b.toNat < c.toNat
      · simp [show a.toNat < c.toNat by omega]
      · by_cases hcb : c.toNat < b.toNat
        · simp [hbc, hcb] at h2
        · simp [show a.toNat < c.toNat by omega]
    · by_cases hba : b.toNat < a.toNat
      · simp [hab, hba] at h1
      · simp [hab, hba] at h1
        by_cases hbc : b.toNat < c.toNat
        · simp [show a.toNat < c.toNat by omega]
        · by_cases hcb : c.toNat < b.toNat
          · simp [hbc, hcb] at h2
          · simp [hbc, hcb] at h2
            simp [show ¬ a.toNat < c.toNat by omega, show ¬ c.toNat < a.toNat by omega]
            exact charListLE_trans as bs cs h1 h2

theorem charListLE_antisymm : ∀ x y : List Char,
    charListLE x y = true → charListLE y x = true → x = y
  | [], [], _, _ => rfl
  | [], _ :: _, _, h => by simp [charListLE] at h
  | _ :: _, [], h, _ => by simp [charListLE] at h
  | a :: as, b :: bs, h1, h2 => by
    simp only [charListLE] at h1 h2
    by_cases hab : a.toNat < b.toNat
    · simp [show ¬ b.toNat < a.toNat by omega, hab] at h2
    · by_cases hba : b.toNat < a.toNat
      · simp [hab, hba] at h1
      · simp [hab, hba] at h1
        simp [hba, hab] at h2
        have hn : a.toNat = b.toNat := by omega
        have hc : a = b := Char.ext (UInt32.toNat.inj hn)
        rw [hc, charListLE_antisymm as bs h1 h2]

/-- Ordering of map entries by key, as Go `text/template` uses when ranging
over a `map[string]string`. -/
def keyLE (a b : String × String) : Prop := charListLE a.1.data b.1.data = true

instance : DecidableRel keyLE :=
  fun a b => inferInstanceAs (Decidable (charListLE a.1.data b.1.data = true))

instance : IsTotal (String × String) keyLE :=
  ⟨fun a b => charListLE_total a.1.data b.1.data⟩

instance : IsTrans (String × String) keyLE :=
  ⟨fun _ _ _ h h2 => charListLE_trans _ _ _ h h2⟩

theorem keyLE_antisymm {a b : String × String} (h : keyLE a b) (h2 : keyLE b a) :
    a.1 = b.1 :=
  String.ext (charListLE_antisymm _ _ h h2)

/-- Go template `range` over a map visits entries in increasing key order,
whatever order the runtime happens to store them in. -/
def sortPairs (l : List (String × String)) : List (String × String) :=
  List.insertionSort keyLE l

/-- Rendering of `{{range $k, $v := .PartitionKeys}}{{$v}}, {{end}}`. -/
def rangeVals (ps : List (String × String)) : String :=
  String.join (ps.map fun p => p.2 ++ ", ")

/-- Rendering of
`{{range $k, $v := .PartitionKeys}}target.{{$v}} = keep.{{$k}} AND {{end}}`. -/
def rangeMatch (ps : List (String × String)) : String :=
  String.join (ps.map fun p => "target." ++ p.2 ++ " = keep." ++ p.1 ++ " AND ")

/-- The `tmpTable` template constant:
the backquoted `{{.Project}}.tmp_{{.Job.Experiment}}.{{.Job.Datatype}}` name. -/
def tmpTable (params : queryer) : String :=
  "`" ++ params.Project ++ ".tmp_" ++ params.Job.Experiment ++ "." ++
    params.Job.Datatype ++ "`"

/-- Rendering of `dedupTemplate` given the order `ps` in which the template
engine enumerates the `PartitionKeys` map entries (already sorted by the
caller).  The literal text is transcribed byte for byte from `ops.go`. -/
def renderDedup (params : queryer) (ps : List (String × String)) : String :=
  "\n#standardSQL\n# Delete all duplicate rows based on key and prefered priority ordering.\n# This is resource intensive for tcpinfo - 20 slot hours for 12M rows with 250M snapshots,\n# roughly proportional to the memory footprint of the table partition.\n# The query is very cheap if there are no duplicates.\nDELETE\nFROM " ++
  tmpTable params ++ " AS target\n" ++ "WHERE " ++ params.Date ++ " = \"" ++
  params.Job.Date.formatISO ++ "\"" ++
  "\n# This identifies all rows that don\x27t match rows to preserve.\nAND NOT EXISTS (\n  # This creates list of rows to preserve, based on key and priority.\n  WITH keep AS (\n  SELECT * EXCEPT(row_number) FROM (\n    SELECT\n      " ++
  rangeVals ps ++ "\n\t  parser.Time,\n      ROW_NUMBER() OVER (\n        " ++
  ("PARTITION BY " ++ rangeVals ps ++
    ("date" ++ ("\n        ORDER BY " ++ (params.OrderKeys ++ " parser.Time DESC")))) ++
  "\n      ) row_number\n      FROM (\n        SELECT * FROM " ++ tmpTable params ++
  "\n        " ++ "WHERE " ++ params.Date ++ " = \"" ++
  params.Job.Date.formatISO ++ "\"" ++
  "\n      )\n    )\n    WHERE row_number = 1\n  )\n  SELECT * FROM keep\n  # This matches against the keep table based on keys.  Sufficient select keys must be\n  # used to distinguish the preferred row from the others.\n  WHERE\n    " ++
  rangeMatch ps ++ "\n    target.parser.Time = keep.Time\n)"

/-- `DedupQuery` rendered with an explicit runtime enumeration order of the
`PartitionKeys` map: the template engine sorts the entries by key first. -/
def DedupQueryWithEnum (params : queryer) (enum : List (String × String)) : String :=
  renderDedup params (sortPairs enum)

/-- `bq.queryer.DedupQuery`: the dedup query in string form. -/
def DedupQuery (params : queryer) : String :=
  DedupQueryWithEnum params params.PartitionKeys

/-- Rendering of `cleanupTemplate` (the whole-partition delete query).
The cleanup template contains no map iteration. -/
def renderCleanup (params : queryer) : String :=
  "\n#standardSQL\n# Delete all rows in a partition.\nDELETE\nFROM " ++
  tmpTable params ++ "\n" ++ "WHERE " ++ params.Date ++ " = \"" ++
  params.Job.Date.formatISO ++ "\"" ++ "\n"

/-- The cleanup query rendered with an explicit map enumeration order; the
template ranges over nothing, so the order is unused. -/
def CleanupQueryWithEnum (params : queryer) (_enum : List (String × String)) : String :=
  renderCleanup params

/-- `bq.queryer.QueryFor` (the `Queryer` variant of `ops.go`): look up the
template by key in `queryTemplates` and render it; an unknown key yields
the empty string. -/
def QueryFor (params : queryer) (key : String) : String :=
  if key = "dedup" then DedupQuery params
  else if key = "cleanup" then renderCleanup params
  else ""

/-- `bq.queryer.Dedup`: render the dedup query and submit it.  The submitted
query text is returned on success; the remote job itself is out of scope. -/
def Dedup (params : queryer) (_dryRun : Bool) : Except BQError String :=
  let qs := DedupQuery params
  if qs.length = 0 then .error .ErrNilQuery
  else match params.client with
  | none => .error .ErrNilBqClient
  | some _ => .ok qs

/-- BigQuery write dispositions. -/
inductive WriteDisposition where
  | WriteAppend
  | WriteTruncate
  | WriteEmpty
deriving DecidableEq, Repr

/-- A table reference `dataset.table` as used by the copy and delete calls. -/
structure TableRef where
  dataset : String
  table : String
deriving DecidableEq, Repr

/-- The copy request `CopyToRaw` issues: source, destination and disposition. -/
structure CopySpec where
  src : TableRef
  dest : TableRef
  disposition : WriteDisposition
deriving DecidableEq, Repr

/-- `bq.queryer.CopyToRaw`: copies the `tmp_` job partition to the `raw_`
job partition.  Modelled by returning the copy request it would run; the
metadata logging on the way is side-effect-free observation and is omitted. -/
def CopyToRaw (params : queryer) (dryRun : Bool) : Except BQError CopySpec :=
  if dryRun then .error .dryRunNotImplemented
  else match params.client with
  | none => .error .ErrNilBqClient
  | some _ =>
    .ok { src := { dataset := "tmp_" ++ params.Job.Experiment,
                   table := params.Job.Datatype ++ "$" ++ params.Job.Date.formatYYYYMMDD },
          dest := { dataset := "raw_" ++ params.Job.Experiment,
                    table := params.Job.Datatype ++ "$" ++ params.Job.Date.formatYYYYMMDD },
          disposition := .WriteTruncate }

/-- `bq.queryer.DeleteTmp`: deletes the tmp table partition.  Modelled by
returning the table reference it deletes. -/
def DeleteTmp (params : queryer) : Except BQError TableRef :=
  match params.client with
  | none => .error .ErrNilBqClient
  | some _ =>
    .ok { dataset := "tmp_" ++ params.Job.Experiment,
          table := params.Job.Datatype ++ "$" ++ params.Job.Date.formatYYYYMMDD }

/-- Strict key comparison, used to show a sort by pairwise-distinct keys has
a unique result. -/
def keyLT (a b : String × String) : Prop := keyLE a b ∧ a.1 ≠ b.1

instance : IsAntisymm (String × String) keyLT :=
  ⟨fun _ _ h h2 => absurd (keyLE_antisymm h.1 h2.1) h.2⟩

theorem sorted_keyLT_sortPairs (l : List (String × String))
    (hnd : (l.map Prod.fst).Nodup) : List.Sorted keyLT (sortPairs l) := by
  have hle : List.Sorted keyLE (sortPairs l) := List.sorted_insertionSort keyLE l
  have hperm : (sortPairs l).Perm l := List.perm_insertionSort keyLE l
  have hnd2 : ((sortPairs l).map Prod.fst).Nodup :=
    ((hperm.map Prod.fst).nodup_iff).mpr hnd
  have hne : List.Pairwise (fun a b : String × String => a.1 ≠ b.1) (sortPairs l) :=
    List.pairwise_map.mp hnd2
  exact hle.and hne

/-- A map with pairwise-distinct keys sorts to the same entry list whatever
order the runtime enumerates it in. -/
theorem sortPairs_eq_of_perm {l₁ l₂ : List (String × String)} (h : l₁.Perm l₂)
    (hnd : (l₁.map Prod.fst).Nodup) : sortPairs l₁ = sortPairs l₂ := by
  have hperm : (sortPairs l₁).Perm (sortPairs l₂) :=
    (List.perm_insertionSort keyLE l₁).trans
      (h.trans (List.perm_insertionSort keyLE l₂).symm)
  have hnd₂ : (l₂.map Prod.fst).Nodup := ((h.map Prod.fst).nodup_iff).mp hnd
  exact List.eq_of_perm_of_sorted hperm
    (sorted_keyLT_sortPairs l₁ hnd) (sorted_keyLT_sortPairs l₂ hnd₂)

theorem rangeVals_single (k v : String) :
    rangeVals (sortPairs [(k, v)]) = v ++ ", " := rfl

theorem rangeMatch_single (k v : String) :
    rangeMatch (sortPairs [(k, v)]) =
      "target." ++ v ++ " = keep." ++ k ++ " AND " := rfl

/-! ## Partition-name parser (spec §4.1)

`getTableParts` itself is absent from src/ — only its unit test
`Test_getTableParts` in `sanity_test.go` is present — so the parser is
modelled from the spec.  It works on `List Char` so that every function is
structurally recursive and kernel-evaluable. -/

/-- Splits a character list at every occurrence of `c` (Go `strings.Split`):
the result is the list of separator-free segments, one more segment than
there are separators. -/
def splitOnChar (c : Char) : List Char → List (List Char)
  | [] => [[]]
  | x :: xs =>
    if x = c then [] :: splitOnChar c xs
    else
      match splitOnChar c xs with
      | [] => [[x]]
      | y :: ys => (x :: y) :: ys

/-- Digit characters to the number they spell. -/
def digitsToNat (l : List Char) : Nat :=
  l.foldl (fun a c => a * 10 + (c.toNat - 48)) 0

def isLeapYear (y : Nat) : Bool :=
  (y % 4 == 0 && y % 100 != 0) || y % 400 == 0

def daysInMonth (y m : Nat) : Nat :=
  if m = 2 then (if isLeapYear y then 29 else 28)
  else if m = 4 ∨ m = 6 ∨ m = 9 ∨ m = 11 then 30
  else 31

/-- Exactly 8 digit characters spelling a valid calendar date: month 1–12
and a day valid for that month, leap years included. -/
def validYYYYMMDD (l : List Char) : Bool :=
  l.length == 8 && l.all Char.isDigit &&
  (let y := digitsToNat (l.take 4)
   let m := digitsToNat ((l.drop 4).take 2)
   let d := digitsToNat (l.drop 6)
   decide (1 ≤ m) && decide (m ≤ 12) && decide (1 ≤ d) &&
     decide (d ≤ daysInMonth y m))

/-- Undoes `splitOnChar '_'`: rejoins segments with underscores. -/
def joinUnderscore : List (List Char) → List Char
  | [] => []
  | [s] => s
  | s :: ss => s ++ '_' :: joinUnderscore ss

/-- The trailing `_digits` group of a name, if any: the base before the last
underscore and the non-empty all-digit group after it. -/
def shardSuffix (l : List Char) : Option (List Char × List Char) :=
  let segs := splitOnChar '_' l
  match segs.getLast? with
  | none => none
  | some last =>
    if 2 ≤ segs.length && !last.isEmpty && last.all Char.isDigit then
      some (joinUnderscore segs.dropLast, last)
    else none

/-- Result of the partition-name parser.  Go field names are `prefix`,
`isPartitioned` and `yyyymmdd`; the first is a reserved word in Lean, so
that field is called `base` here. -/
structure tableParts where
  base : String
  isPartitioned : Bool
  yyyymmdd : String
deriving DecidableEq, Repr

/-- Modelled from the spec: `getTableParts` (§4.1, the Partition-Name
Parser) is absent from src/ — only its unit test is.  Per the spec it
splits a table identifier into base name, separator kind and 8-digit date,
and fails with an `InvalidPartitionName` error when the name has more than
one partition separator (a `$`, or a trailing `_digits` group — ambiguous),
when a declared partition suffix is not exactly 8 digits, or when the 8
digits do not form a valid calendar date.  `isPartitioned` is true only for
the explicit `$YYYYMMDD` form; a trailing `_YYYYMMDD` group is the sharded
naming convention, reporting a parsed date with `isPartitioned = false`.
A name with neither separator parses as a bare table name (a case the spec
leaves open; no claim depends on it). -/
def getTableParts (name : String) : Except String tableParts :=
  match splitOnChar '$' name.data with
  | [whole] =>
    match shardSuffix whole with
    | some (base, ds) =>
      if validYYYYMMDD ds then .ok ⟨⟨base⟩, false, ⟨ds⟩⟩
      else .error ("InvalidPartitionName: " ++ name)
    | none => .ok ⟨name, false, ""⟩
  | [front, suffix] =>
    if (shardSuffix front).isSome then .error ("InvalidPartitionName: " ++ name)
    else if validYYYYMMDD suffix then .ok ⟨⟨front⟩, true, ⟨suffix⟩⟩
    else .error ("InvalidPartitionName: " ++ name)
  | _ => .error ("InvalidPartitionName: " ++ name)

/-! ## Sanity checker (spec §4.4)

`SanityCheckAndCopy` is absent from src/ — only tests referencing it are —
so it is modelled from the spec. -/

/-- Table metadata as fetched from the warehouse (spec §3; the timestamps
are not needed by any claim). -/
structure TableMeta where
  numRows : Nat
  numBytes : Nat
  isPartitioned : Bool
deriving DecidableEq, Repr

/-- Outcome of a metadata fetch: found, a well-formed not-found response,
or a transient fetch failure. -/
inductive MetaFetch where
  | found (m : TableMeta)
  | notFound
  | fetchError
deriving DecidableEq, Repr

/-- Table detail (spec §3): distinct source-file count and record count. -/
structure TableDetail where
  taskFileCount : Nat
  testCount : Nat
deriving DecidableEq, Repr

/-- Outcome of a detail fetch. -/
inductive DetailFetch where
  | found (d : TableDetail)
  | fetchError
deriving DecidableEq, Repr

/-- Errors of the sanity checker (spec §7 taxonomy). -/
inductive SanityError where
  | invalidPartitionName (name : String)
  | errMetadataUnavailable
  | sanityCheckFailed
deriving DecidableEq, Repr

/-- Everything `SanityCheckAndCopy` does to the outside world: either it
promotes nothing (no copy, no other mutation) or it issues exactly one copy
request, with the given disposition. -/
inductive SanityOutcome where
  | nothingToPromote
  | copied (src dest : String) (disposition : WriteDisposition)
deriving DecidableEq, Repr

/-- Modelled from the spec: `SanityCheckAndCopy` (§4.4, the Sanity Checker)
is absent from src/.  Per the spec it
1. parses both table names, failing fast on malformed names;
2. fetches metadata for both, failing with `ErrMetadataUnavailable` on a
   fetch error — except that an empty or non-existent source partition
   (zero rows, or a well-formed not-found response) is a valid
   "nothing to promote" state, not an error;
3. judges promotion safe only if the destination is empty (first promotion)
   or the source record and file counts are at least the destination
   pre-copy counts;
4. if safe, issues the copy with the whole-partition overwrite disposition;
   if unsafe, returns a descriptive error without mutating anything.
The fetch results are passed in as arguments (they are remote reads). -/
def SanityCheckAndCopy (srcName destName : String)
    (srcMeta destMeta : MetaFetch) (srcDetail destDetail : DetailFetch) :
    Except SanityError SanityOutcome :=
  match getTableParts srcName with
  | .error _ => .error (.invalidPartitionName srcName)
  | .ok _ =>
    match getTableParts destName with
    | .error _ => .error (.invalidPartitionName destName)
    | .ok _ =>
      match srcMeta with
      | .fetchError => .error .errMetadataUnavailable
      | .notFound => .ok .nothingToPromote
      | .found sm =>
        if sm.numRows = 0 then .ok .nothingToPromote
        else
          match destMeta with
          | .fetchError => .error .errMetadataUnavailable
          | .notFound => .ok (.copied srcName destName .WriteTruncate)
          | .found dm =>
            if dm.numRows = 0 then .ok (.copied srcName destName .WriteTruncate)
            else
              match srcDetail, destDetail with
              | .fetchError, _ => .error .errMetadataUnavailable
              | _, .fetchError => .error .errMetadataUnavailable
              | .found sd, .found dd =>
                if dd.testCount ≤ sd.testCount ∧ dd.taskFileCount ≤ sd.taskFileCount then
                  .ok (.copied srcName destName .WriteTruncate)
                else .error .sanityCheckFailed

/-! ## The dedup query as claim C1 describes it -/

/-- Comma-separated column list. -/
def commaSep : List String → String
  | [] => ""
  | [v] => v
  | v :: vs => v ++ ", " ++ commaSep vs

/-- The dedup query exactly as claim C1 states it: identical to the rendered
template except that the `ROW_NUMBER` window is partitioned over the
declared partition keys alone.  A second definition written from the claim
wording, to be compared with `DedupQuery`. -/
def claimC1StatedQuery (params : queryer) : String :=
  let ps := sortPairs params.PartitionKeys
  "\n#standardSQL\n# Delete all duplicate rows based on key and prefered priority ordering.\n# This is resource intensive for tcpinfo - 20 slot hours for 12M rows with 250M snapshots,\n# roughly proportional to the memory footprint of the table partition.\n# The query is very cheap if there are no duplicates.\nDELETE\nFROM " ++
  tmpTable params ++ " AS target\n" ++ "WHERE " ++ params.Date ++ " = \"" ++
  params.Job.Date.formatISO ++ "\"" ++
  "\n# This identifies all rows that don\x27t match rows to preserve.\nAND NOT EXISTS (\n  # This creates list of rows to preserve, based on key and priority.\n  WITH keep AS (\n  SELECT * EXCEPT(row_number) FROM (\n    SELECT\n      " ++
  rangeVals ps ++ "\n\t  parser.Time,\n      ROW_NUMBER() OVER (\n        " ++
  ("PARTITION BY " ++ commaSep (ps.map Prod.snd) ++
    ("\n        ORDER BY " ++ (params.OrderKeys ++ " parser.Time DESC"))) ++
  "\n      ) row_number\n      FROM (\n        SELECT * FROM " ++ tmpTable params ++
  "\n        " ++ "WHERE " ++ params.Date ++ " = \"" ++
  params.Job.Date.formatISO ++ "\"" ++
  "\n      )\n    )\n    WHERE row_number = 1\n  )\n  SELECT * FROM keep\n  # This matches against the keep table based on keys.  Sufficient select keys must be\n  # used to distinguish the preferred row from the others.\n  WHERE\n    " ++
  rangeMatch ps ++ "\n    target.parser.Time = keep.Time\n)"

/-- Claim C1 as amended: the dedup query built from the policy ingredients —
project, job, the policy date column, the single declared partition key
(logical name and fully qualified column) and the tie-break order — in
which the keep-selection window is partitioned over the declared partition
key FOLLOWED BY the hard-coded `date` column, and ordered by the tie-break
expression followed by `parser.Time` descending; the DELETE is restricted
to rows whose policy date column equals the job date in `YYYY-MM-DD` form,
and removes exactly the rows matching no keep row on the partition key and
on `parser.Time`. -/
def claimC1AmendedQuery (project : String) (job : Job)
    (dateCol keyName keyCol order : String) : String :=
  let tmpT := "`" ++ project ++ ".tmp_" ++ job.Experiment ++ "." ++ job.Datatype ++ "`"
  let dateFilter := "WHERE " ++ dateCol ++ " = \"" ++ job.Date.formatISO ++ "\""
  let keepWindow :=
    "PARTITION BY " ++ (keyCol ++ ", ") ++
      ("date" ++ ("\n        ORDER BY " ++ (order ++ " parser.Time DESC")))
  let keepMatch := "target." ++ keyCol ++ " = keep." ++ keyName ++ " AND "
  "\n#standardSQL\n# Delete all duplicate rows based on key and prefered priority ordering.\n# This is resource intensive for tcpinfo - 20 slot hours for 12M rows with 250M snapshots,\n# roughly proportional to the memory footprint of the table partition.\n# The query is very cheap if there are no duplicates.\nDELETE\nFROM " ++
  tmpT ++ " AS target\n" ++ dateFilter ++
  "\n# This identifies all rows that don\x27t match rows to preserve.\nAND NOT EXISTS (\n  # This creates list of rows to preserve, based on key and priority.\n  WITH keep AS (\n  SELECT * EXCEPT(row_number) FROM (\n    SELECT\n      " ++
  (keyCol ++ ", ") ++ "\n\t  parser.Time,\n      ROW_NUMBER() OVER (\n        " ++
  keepWindow ++
  "\n      ) row_number\n      FROM (\n        SELECT * FROM " ++ tmpT ++
  "\n        " ++ dateFilter ++
  "\n      )\n    )\n    WHERE row_number = 1\n  )\n  SELECT * FROM keep\n  # This matches against the keep table based on keys.  Sufficient select keys must be\n  # used to distinguish the preferred row from the others.\n  WHERE\n    " ++
  keepMatch ++ "\n    target.parser.Time = keep.Time\n)"

/-! ## Non-emptiness of the rendered queries -/

theorem renderDedup_ne_empty (params : queryer) (ps : List (String × String)) :
    renderDedup params ps ≠ "" := by
  intro h
  have hlen : (renderDedup params ps).length = (0 : Nat) := by rw [h]; rfl
  have hpos : 0 < ("\n    target.parser.Time = keep.Time\n)" : String).length := by decide
  rw [renderDedup] at hlen
  simp only [String.length_append] at hlen
  omega

theorem renderCleanup_ne_empty (params : queryer) : renderCleanup params ≠ "" := by
  intro h
  have hlen : (renderCleanup params).length = (0 : Nat) := by rw [h]; rfl
  have hpos : 0 < ("\n#standardSQL\n# Delete all rows in a partition.\nDELETE\nFROM " : String).length := by decide
  rw [renderCleanup] at hlen
  simp only [String.length_append] at hlen
  omega

/-! ## Concrete jobs and builders used by witnesses and counterexamples -/

/-- A concrete ndt5 job. -/
def sampleJob : Job :=
  { Bucket := "bucket", Experiment := "ndt", Datatype := "ndt5",
    Date := { year := 2019, month := 3, day := 4 } }

/-- The builder `NewQuerierWithClient` constructs for `sampleJob`. -/
def sampleNdt5 : queryer :=
  { client := some (), Project := "mlab-sandbox",
    Date := "log_time", Job := sampleJob,
    PartitionKeys := [("test_id", "test_id")], OrderKeys := "" }

/-- A concrete job of a datatype outside the supported set. -/
def tcpinfoJob : Job :=
  { Bucket := "bucket", Experiment := "ndt", Datatype := "tcpinfo",
    Date := { year := 2019, month := 8, day := 12 } }

/-- A concrete job for a hypothetical two-key policy. -/
def twoKeyJob : Job :=
  { Bucket := "bucket", Experiment := "exp", Datatype := "composite",
    Date := { year := 2020, month := 1, day := 2 } }

/-- A hypothetical builder whose policy declares two partition keys, used to
exercise the map-iteration-order independence of rendering. -/
def twoKeyParams : queryer :=
  { client := some (), Project := "proj", Date := "date", Job := twoKeyJob,
    PartitionKeys := [("a", "cola"), ("b", "colb")], OrderKeys := "" }

/-! ## Claims -/

set_option maxRecDepth 8000 in
set_option maxHeartbeats 1600000 in
/-- C1, counterexample: for the ndt5 builder of a concrete job, the rendered
dedup query is NOT the query the claim states — the `ROW_NUMBER` window of
the rendered query is `PARTITION BY test_id, date`, not `PARTITION BY
test_id` over the declared partition keys alone. -/
theorem c1_counterexample : DedupQuery sampleNdt5 ≠ claimC1StatedQuery sampleNdt5 := by
  decide

set_option maxRecDepth 8000 in
set_option maxHeartbeats 1600000 in
/-- C1 (amended): for every supported datatype and job, the rendered dedup
query is a DELETE over the `tmp_<experiment>.<datatype>` table restricted to
rows whose policy date column equals the job date formatted `YYYY-MM-DD`,
deleting exactly the rows of that filtered set that match no keep row on the
declared partition key and on `parser.Time`, where the keep rows are the
rank-1 rows of a `ROW_NUMBER` window partitioned over the declared partition
key FOLLOWED BY the hard-coded `date` column and ordered by the tie-break
expression then `parser.Time` descending. -/
theorem c1_dedup_query_amended (client : Option Unit) (job : Job) (project : String)
    (q : queryer) (hq : NewQuerierWithClient client job project = Except.ok q) :
    (job.Datatype = "annotation" →
      DedupQuery q = claimC1AmendedQuery project job "date" "id" "id" "") ∧
    (job.Datatype = "ndt5" →
      DedupQuery q = claimC1AmendedQuery project job "log_time" "test_id" "test_id" "") ∧
    (job.Datatype = "ndt7" →
      DedupQuery q = claimC1AmendedQuery project job "date" "id" "id" "") := by
  refine ⟨fun h => ?_, fun h => ?_, fun h => ?_⟩ <;>
  · simp [NewQuerierWithClient, h] at hq
    subst hq
    apply String.ext
    simp [DedupQuery, DedupQueryWithEnum, renderDedup, claimC1AmendedQuery, tmpTable,
          rangeVals_single, rangeMatch_single, String.data_append, List.append_assoc]

set_option maxRecDepth 8000 in
set_option maxHeartbeats 1600000 in
/-- C1, witness: the amended theorem applied to the concrete ndt5 job. -/
theorem c1_dedup_query_amended_witness :
    NewQuerierWithClient (some ()) sampleJob "mlab-sandbox" = Except.ok sampleNdt5 ∧
    DedupQuery sampleNdt5 =
      claimC1AmendedQuery "mlab-sandbox" sampleJob "log_time" "test_id" "test_id" "" :=
  ⟨by decide,
    (c1_dedup_query_amended (some ()) sampleJob "mlab-sandbox" sampleNdt5
      (by decide)).2.1 rfl⟩

/-- C2: the partition-name parser maps `table$20160102` to
`(table, partitioned, 20160102)`, maps `table_20160102` to
`(table, not partitioned, 20160102)`, and fails with an
`InvalidPartitionName` error on `table$2016010` (too short),
`table$201601022` (too long) and `table$20162102` (month 21 is not a valid
calendar date).  The parser is a plain Lean function, hence pure. -/
theorem c2_getTableParts_cases :
    getTableParts "table$20160102" =
        .ok { base := "table", isPartitioned := true, yyyymmdd := "20160102" } ∧
    getTableParts "table_20160102" =
        .ok { base := "table", isPartitioned := false, yyyymmdd := "20160102" } ∧
    getTableParts "table$2016010" = .error "InvalidPartitionName: table$2016010" ∧
    getTableParts "table$201601022" = .error "InvalidPartitionName: table$201601022" ∧
    getTableParts "table$20162102" = .error "InvalidPartitionName: table$20162102" := by
  decide

/-- C3: for every datatype outside the supported set
`{annotation, ndt5, ndt7}`, constructing a builder fails with
`ErrDatatypeNotSupported` (and no builder — hence no query text — is ever
produced: the error constructor carries none). -/
theorem c3_unsupported_datatype (client : Option Unit) (job : Job) (project : String)
    (h : job.Datatype ∉ (["annotation", "ndt5", "ndt7"] : List String)) :
    NewQuerierWithClient client job project = .error .ErrDatatypeNotSupported := by
  simp only [List.mem_cons, List.not_mem_nil, or_false, not_or] at h
  obtain ⟨h1, h2, h3⟩ := h
  simp [NewQuerierWithClient, h1, h2, h3]

/-- C3, witness: the theorem applied to a concrete `tcpinfo` job. -/
theorem c3_unsupported_datatype_witness :
    tcpinfoJob.Datatype ∉ (["annotation", "ndt5", "ndt7"] : List String) ∧
    NewQuerierWithClient (some ()) tcpinfoJob "mlab-sandbox" =
      .error .ErrDatatypeNotSupported :=
  ⟨by decide, c3_unsupported_datatype (some ()) tcpinfoJob "mlab-sandbox" (by decide)⟩

/-- C4: rendering is deterministic — the dedup (and cleanup) query text is
a function of the builder alone.  The only nondeterminism in the inputs is
the runtime enumeration order of the `PartitionKeys` map, and any two
enumeration orders of the map entries (whose keys, being map keys, are
pairwise distinct) render byte-identical text; the model contains no other
input (no time of day, no randomness). -/
theorem c4_rendering_deterministic (params : queryer)
    (enum1 enum2 : List (String × String))
    (h1 : enum1.Perm params.PartitionKeys) (h2 : enum2.Perm params.PartitionKeys)
    (hnd : (params.PartitionKeys.map Prod.fst).Nodup) :
    DedupQueryWithEnum params enum1 = DedupQueryWithEnum params enum2 ∧
    DedupQueryWithEnum params enum1 = DedupQuery params ∧
    CleanupQueryWithEnum params enum1 = CleanupQueryWithEnum params enum2 := by
  have hnd1 : (enum1.map Prod.fst).Nodup := ((h1.map Prod.fst).nodup_iff).mpr hnd
  have hnd2 : (enum2.map Prod.fst).Nodup := ((h2.map Prod.fst).nodup_iff).mpr hnd
  have e1 : sortPairs enum1 = sortPairs params.PartitionKeys := sortPairs_eq_of_perm h1 hnd1
  have e2 : sortPairs enum2 = sortPairs params.PartitionKeys := sortPairs_eq_of_perm h2 hnd2
  refine ⟨?_, ?_, rfl⟩
  · unfold DedupQueryWithEnum; rw [e1, e2]
  · unfold DedupQuery DedupQueryWithEnum; rw [e1]

set_option maxRecDepth 8000 in
set_option maxHeartbeats 1600000 in
/-- C4, witness: the two enumeration orders of a two-key map render the
same dedup query. -/
theorem c4_rendering_deterministic_witness :
    ([(("b" : String), ("colb" : String)), ("a", "cola")]).Perm
        twoKeyParams.PartitionKeys ∧
    ([(("a" : String), ("cola" : String)), ("b", "colb")]).Perm
        twoKeyParams.PartitionKeys ∧
    (twoKeyParams.PartitionKeys.map Prod.fst).Nodup ∧
    DedupQueryWithEnum twoKeyParams [("b", "colb"), ("a", "cola")] =
      DedupQueryWithEnum twoKeyParams [("a", "cola"), ("b", "colb")] :=
  ⟨by decide, by decide, by decide,
    (c4_rendering_deterministic twoKeyParams
      [("b", "colb"), ("a", "cola")] [("a", "cola"), ("b", "colb")]
      (by decide) (by decide) (by decide)).1⟩

/-- C5: the per-datatype policy table is exactly: `annotation` and `ndt7`
each use the single partition key `id → id` with an empty extra tie-break
order, and `ndt5` uses the single partition key `test_id → test_id`, also
with an empty extra tie-break order. -/
theorem c5_policy_table (client : Option Unit) (job : Job) (project : String) :
    (job.Datatype = "annotation" → NewQuerierWithClient client job project =
      .ok { client := client, Project := project, Date := "date", Job := job,
            PartitionKeys := [("id", "id")], OrderKeys := "" }) ∧
    (job.Datatype = "ndt5" → NewQuerierWithClient client job project =
      .ok { client := client, Project := project, Date := "log_time", Job := job,
            PartitionKeys := [("test_id", "test_id")], OrderKeys := "" }) ∧
    (job.Datatype = "ndt7" → NewQuerierWithClient client job project =
      .ok { client := client, Project := project, Date := "date", Job := job,
            PartitionKeys := [("id", "id")], OrderKeys := "" }) := by
  refine ⟨fun h => ?_, fun h => ?_, fun h => ?_⟩ <;> simp [NewQuerierWithClient, h]

/-- C5, witness: the policy table at the concrete ndt5 job. -/
theorem c5_policy_table_witness :
    sampleJob.Datatype = "ndt5" ∧
    NewQuerierWithClient (some ()) sampleJob "mlab-sandbox" =
      .ok { client := some (), Project := "mlab-sandbox", Date := "log_time",
            Job := sampleJob, PartitionKeys := [("test_id", "test_id")],
            OrderKeys := "" } :=
  ⟨rfl, (c5_policy_table (some ()) sampleJob "mlab-sandbox").2.1 rfl⟩

/-- C6: the rendered cleanup query is an unconditional DELETE from
`tmp_<experiment>.<datatype>` whose only restriction is that the policy
date column equals the job date (so it touches no other partition), and
`DeleteTmp` deletes exactly the partition
`tmp_<experiment>.<datatype>$YYYYMMDD` of the job date. -/
theorem c6_cleanup_and_delete_tmp (params : queryer) (hc : params.client = some ()) :
    renderCleanup params =
      "\n#standardSQL\n# Delete all rows in a partition.\nDELETE\nFROM " ++
        ("`" ++ params.Project ++ ".tmp_" ++ params.Job.Experiment ++ "." ++
          params.Job.Datatype ++ "`") ++ "\n" ++
        ("WHERE " ++ params.Date ++ " = \"" ++ params.Job.Date.formatISO ++ "\"") ++
        "\n" ∧
    QueryFor params "cleanup" = renderCleanup params ∧
    DeleteTmp params =
      .ok { dataset := "tmp_" ++ params.Job.Experiment,
            table := params.Job.Datatype ++ "$" ++ params.Job.Date.formatYYYYMMDD } := by
  refine ⟨?_, rfl, ?_⟩
  · apply String.ext
    simp [renderCleanup, tmpTable, String.data_append, List.append_assoc]
  · simp [DeleteTmp, hc]

/-- C6, witness: `DeleteTmp` on the concrete ndt5 builder deletes exactly
the `tmp_ndt.ndt5$20190304` partition. -/
theorem c6_cleanup_and_delete_tmp_witness :
    sampleNdt5.client = some () ∧
    DeleteTmp sampleNdt5 = .ok { dataset := "tmp_ndt", table := "ndt5$20190304" } :=
  ⟨rfl, ((c6_cleanup_and_delete_tmp sampleNdt5 rfl).2.2).trans (by decide)⟩

/-- C7: for every job, `CopyToRaw` copies the partition
`tmp_<experiment>.<datatype>$YYYYMMDD` to the identically dated partition
`raw_<experiment>.<datatype>$YYYYMMDD` with the whole-partition overwrite
disposition `WriteTruncate`. -/
theorem c7_copy_to_raw_overwrites_partition (params : queryer)
    (hc : params.client = some ()) :
    CopyToRaw params false =
      .ok { src := { dataset := "tmp_" ++ params.Job.Experiment,
                     table := params.Job.Datatype ++ "$" ++
                       params.Job.Date.formatYYYYMMDD },
            dest := { dataset := "raw_" ++ params.Job.Experiment,
                      table := params.Job.Datatype ++ "$" ++
                        params.Job.Date.formatYYYYMMDD },
            disposition := .WriteTruncate } := by
  simp [CopyToRaw, hc]

/-- C7, witness: the copy request of the concrete ndt5 builder. -/
theorem c7_copy_to_raw_overwrites_partition_witness :
    sampleNdt5.client = some () ∧
    CopyToRaw sampleNdt5 false =
      .ok { src := { dataset := "tmp_ndt", table := "ndt5$20190304" },
            dest := { dataset := "raw_ndt", table := "ndt5$20190304" },
            disposition := .WriteTruncate } :=
  ⟨rfl, (c7_copy_to_raw_overwrites_partition sampleNdt5 rfl).trans (by decide)⟩

/-- C8: an empty rendering can only arise from a policy with zero partition
keys — every builder whose policy has at least one partition key renders
non-empty dedup and cleanup query text (indeed the rendering is never
empty, so the implication from emptiness to zero keys holds of every
builder). -/
theorem c8_empty_rendering_only_zero_keys (params : queryer) :
    (params.PartitionKeys ≠ [] → DedupQuery params ≠ "" ∧ renderCleanup params ≠ "") ∧
    (DedupQuery params = "" → params.PartitionKeys = []) ∧
    (renderCleanup params = "" → params.PartitionKeys = []) :=
  ⟨fun _ => ⟨renderDedup_ne_empty params _, renderCleanup_ne_empty params⟩,
    fun h => absurd h (renderDedup_ne_empty params _),
    fun h => absurd h (renderCleanup_ne_empty params)⟩

/-- C8, witness: the concrete ndt5 builder has one partition key and a
non-empty rendered dedup query. -/
theorem c8_empty_rendering_only_zero_keys_witness :
    sampleNdt5.PartitionKeys ≠ [] ∧ DedupQuery sampleNdt5 ≠ "" :=
  ⟨by decide, ((c8_empty_rendering_only_zero_keys sampleNdt5).1 (by decide)).1⟩

/-- C9: the sanity check on a source partition that is empty or
non-existent (zero rows, or a well-formed not-found response) returns the
non-error `nothingToPromote` outcome, which carries no copy request and no
other mutation. -/
theorem c9_empty_source_nothing_to_promote (srcName destName : String)
    (srcMeta destMeta : MetaFetch) (srcDetail destDetail : DetailFetch)
    (sp dp : tableParts)
    (hs : getTableParts srcName = .ok sp) (hd : getTableParts destName = .ok dp)
    (hEmpty : srcMeta = .notFound ∨ ∃ m, srcMeta = .found m ∧ m.numRows = 0) :
    SanityCheckAndCopy srcName destName srcMeta destMeta srcDetail destDetail =
      .ok .nothingToPromote := by
  rcases hEmpty with h | ⟨m, h, hz⟩ <;> subst h <;> simp [SanityCheckAndCopy, hs, hd]
  simp [hz]

/-- C9, witness: the theorem applied to the table names of the repository
test with a not-found source partition. -/
theorem c9_empty_source_nothing_to_promote_witness :
    getTableParts "traceroute_20130524" =
        .ok { base := "traceroute", isPartitioned := false, yyyymmdd := "20130524" } ∧
    getTableParts "traceroute$20130524" =
        .ok { base := "traceroute", isPartitioned := true, yyyymmdd := "20130524" } ∧
    SanityCheckAndCopy "traceroute_20130524" "traceroute$20130524"
        .notFound (.found { numRows := 8, numBytes := 168, isPartitioned := true })
        (.found { taskFileCount := 0, testCount := 0 })
        (.found { taskFileCount := 0, testCount := 0 }) = .ok .nothingToPromote :=
  ⟨by decide, by decide,
    c9_empty_source_nothing_to_promote "traceroute_20130524" "traceroute$20130524"
      .notFound (.found { numRows := 8, numBytes := 168, isPartitioned := true })
      (.found { taskFileCount := 0, testCount := 0 })
      (.found { taskFileCount := 0, testCount := 0 })
      { base := "traceroute", isPartitioned := false, yyyymmdd := "20130524" }
      { base := "traceroute", isPartitioned := true, yyyymmdd := "20130524" }
      (by decide) (by decide) (Or.inl rfl)⟩

set_option maxRecDepth 8000 in
set_option maxHeartbeats 1600000 in
/-- C10: for every builder, the keep-selection window of the rendered dedup
query partitions rows by the declared partition keys followed by the
literal column `date` and orders by the tie-break expression then the
literal `parser.Time DESC`, regardless of the configured partition-date
column; in particular the ndt5 builder filters rows on `log_time` while
its `ROW_NUMBER` window still groups by the hard-coded `date` column. -/
theorem c10_window_hardcoded_date (params : queryer) (client : Option Unit)
    (job : Job) (project : String) (q : queryer) :
    (∃ a b, DedupQuery params =
      a ++ ("PARTITION BY " ++ rangeVals (sortPairs params.PartitionKeys) ++
        ("date" ++ ("\n        ORDER BY " ++
          (params.OrderKeys ++ " parser.Time DESC")))) ++ b) ∧
    (job.Datatype = "ndt5" → NewQuerierWithClient client job project = Except.ok q →
      q.Date = "log_time" ∧
      rangeVals (sortPairs q.PartitionKeys) = "test_id, " ∧
      ∃ c d, DedupQuery q =
        c ++ ("WHERE " ++ q.Date ++ " = \"" ++ job.Date.formatISO ++ "\"") ++ d) := by
  constructor
  · refine ⟨"\n#standardSQL\n# Delete all duplicate rows based on key and prefered priority ordering.\n# This is resource intensive for tcpinfo - 20 slot hours for 12M rows with 250M snapshots,\n# roughly proportional to the memory footprint of the table partition.\n# The query is very cheap if there are no duplicates.\nDELETE\nFROM " ++
      tmpTable params ++ " AS target\n" ++ "WHERE " ++ params.Date ++ " = \"" ++
      params.Job.Date.formatISO ++ "\"" ++
      "\n# This identifies all rows that don\x27t match rows to preserve.\nAND NOT EXISTS (\n  # This creates list of rows to preserve, based on key and priority.\n  WITH keep AS (\n  SELECT * EXCEPT(row_number) FROM (\n    SELECT\n      " ++
      rangeVals (sortPairs params.PartitionKeys) ++
      "\n\t  parser.Time,\n      ROW_NUMBER() OVER (\n        ",
      "\n      ) row_number\n      FROM (\n        SELECT * FROM " ++ tmpTable params ++
      "\n        " ++ "WHERE " ++ params.Date ++ " = \"" ++
      params.Job.Date.formatISO ++ "\"" ++
      "\n      )\n    )\n    WHERE row_number = 1\n  )\n  SELECT * FROM keep\n  # This matches against the keep table based on keys.  Sufficient select keys must be\n  # used to distinguish the preferred row from the others.\n  WHERE\n    " ++
      rangeMatch (sortPairs params.PartitionKeys) ++
      "\n    target.parser.Time = keep.Time\n)", ?_⟩
    apply String.ext
    simp [DedupQuery, DedupQueryWithEnum, renderDedup, String.data_append,
      List.append_assoc]
  · intro h hq
    simp [NewQuerierWithClient, h] at hq
    subst hq
    refine ⟨rfl, rfl, ?_⟩
    refine ⟨"\n#standardSQL\n# Delete all duplicate rows based on key and prefered priority ordering.\n# This is resource intensive for tcpinfo - 20 slot hours for 12M rows with 250M snapshots,\n# roughly proportional to the memory footprint of the table partition.\n# The query is very cheap if there are no duplicates.\nDELETE\nFROM " ++
      tmpTable { client := client, Project := project, Date := "log_time", Job := job,
                 PartitionKeys := [("test_id", "test_id")], OrderKeys := "" } ++
      " AS target\n",
      "\n# This identifies all rows that don\x27t match rows to preserve.\nAND NOT EXISTS (\n  # This creates list of rows to preserve, based on key and priority.\n  WITH keep AS (\n  SELECT * EXCEPT(row_number) FROM (\n    SELECT\n      " ++
      rangeVals (sortPairs [("test_id", "test_id")]) ++
      "\n\t  parser.Time,\n      ROW_NUMBER() OVER (\n        " ++
      ("PARTITION BY " ++ rangeVals (sortPairs [("test_id", "test_id")]) ++
        ("date" ++ ("\n        ORDER BY " ++ ("" ++ " parser.Time DESC")))) ++
      "\n      ) row_number\n      FROM (\n        SELECT * FROM " ++
      tmpTable { client := client, Project := project, Date := "log_time", Job := job,
                 PartitionKeys := [("test_id", "test_id")], OrderKeys := "" } ++
      "\n        " ++ "WHERE " ++ "log_time" ++ " = \"" ++
      job.Date.formatISO ++ "\"" ++
      "\n      )\n    )\n    WHERE row_number = 1\n  )\n  SELECT * FROM keep\n  # This matches against the keep table based on keys.  Sufficient select keys must be\n  # used to distinguish the preferred row from the others.\n  WHERE\n    " ++
      rangeMatch (sortPairs [("test_id", "test_id")]) ++
      "\n    target.parser.Time = keep.Time\n)", ?_⟩
    apply String.ext
    simp [DedupQuery, DedupQueryWithEnum, renderDedup, String.data_append,
      List.append_assoc]

set_option maxRecDepth 8000 in
set_option maxHeartbeats 1600000 in
/-- C10, witness: the ndt5 part of the theorem at the concrete ndt5 job. -/
theorem c10_window_hardcoded_date_witness :
    sampleJob.Datatype = "ndt5" ∧
    NewQuerierWithClient (some ()) sampleJob "mlab-sandbox" = Except.ok sampleNdt5 ∧
    sampleNdt5.Date = "log_time" ∧
    rangeVals (sortPairs sampleNdt5.PartitionKeys) = "test_id, " :=
  ⟨rfl, by decide,
    ((c10_window_hardcoded_date sampleNdt5 (some ()) sampleJob "mlab-sandbox"
        sampleNdt5).2 rfl (by decide)).1,
    ((c10_window_hardcoded_date sampleNdt5 (some ()) sampleJob "mlab-sandbox"
        sampleNdt5).2 rfl (by decide)).2.1⟩

end EtlGardener
